import Mathlib

/-!
Verification of the hraftd HTTP service layer (src/http/service.go) against its
specification. The Go handlers are shallowly embedded as pure Lean functions
that, given the results of the collaborator calls (the Store interface,
JSON marshalling and body decoding), produce the observable trace of a single
request: Store calls made, prometheus counter increments, response header
writes and body writes.
-/

namespace Hraftd

/-- Go strings.Split with a one-character separator, on the character list of
the string: splits around every occurrence of the separator, and the result of
splitting the empty string is a singleton list holding the empty string. -/
def goSplit (sep : Char) : List Char → List (List Char)
  | [] => [[]]
  | c :: cs =>
    match goSplit sep cs with
    | [] => if c = sep then [[], []] else [[c]]
    | p :: ps => if c = sep then [] :: p :: ps else (c :: p) :: ps

/-- strings.Split(path, "/") as used by getKey in handleKeyRequest. -/
def splitSlash (s : String) : List String :=
  (goSplit '/' s.data).map (fun cs => String.mk cs)

/-- Go strings.HasPrefix, by character-list comparison. -/
def hasPfx (p s : String) : Bool := List.isPrefixOf p.data s.data

/-- The closure getKey of handleKeyRequest: split the URL path on "/" and
return the third segment, or the empty string when the split does not yield
exactly three segments. -/
def getKey (path : String) : String :=
  let parts := splitSlash path
  if parts.length ≠ 3 then "" else parts.getD 2 ""

/-- Result oracle for the outside Store collaborator of one request: what
each Store method would return when called. The handlers never inspect error
contents, so errors are modelled as Except Unit. -/
structure StoreOracle where
  getRes : String → Except Unit String
  setRes : String → String → Except Unit Unit
  deleteRes : String → Except Unit Unit
  joinRes : String → String → Except Unit Unit
  statusRes : String

/-- Environment of a single request: the Store oracle plus the results of the
encoding/decoding library calls the handlers make. marshalRes k v is
the result of json.Marshal on the one-entry map from k to v; keyBody is the
result of decoding the POST body of a key request into a string-to-string map
(none on decode error, otherwise the entries in iteration order); joinBody is
the same for the join handler body. -/
structure ReqEnv where
  store : StoreOracle
  marshalRes : String → String → Except Unit String
  keyBody : Option (List (String × String))
  joinBody : Option (List (String × String))

/-- Observable trace of handling one request: the arguments of every Store
call issued, the error-counter increments (endpoint, method, status label),
the sequence of WriteHeader calls, the body writes, and the final contents of
the status entry of the mutable labels map of handleKeyRequest (present iff
some error path executed labels["status"] = ...). -/
structure Trace where
  getCalls : List String := []
  setCalls : List (String × String) := []
  deleteCalls : List String := []
  joinCalls : List (String × String) := []
  statusCalls : Nat := 0
  errorIncs : List (String × String × String) := []
  headerWrites : List Nat := []
  bodyWrites : List String := []
  statusLbl : Option String := none
deriving Repr, DecidableEq

/-- Go net/http WriteHeader semantics: the first call fixes the status sent to
the client, later calls are superfluous no-ops, and a handler that never calls
WriteHeader gets an implicit 200. -/
def effectiveStatus (tr : Trace) : Nat := tr.headerWrites.headD 200

/-- Total number of Store calls in a trace. -/
def storeCallCount (tr : Trace) : Nat :=
  tr.getCalls.length + tr.setCalls.length + tr.deleteCalls.length +
    tr.joinCalls.length + tr.statusCalls

/-- The POST branch loop of handleKeyRequest: forward each decoded entry to
Store.Set in order; on the first Set error record a 500 counter increment,
write a 500 header and stop, leaving later entries unattempted. -/
def setAll (method : String) (store : StoreOracle) : List (String × String) → Trace
  | [] => {}
  | (k, v) :: rest =>
    match store.setRes k v with
    | .error _ =>
      { setCalls := [(k, v)], errorIncs := [("/key", method, "500")],
        headerWrites := [500], statusLbl := some "500" }
    | .ok _ =>
      let tr := setAll method store rest
      { tr with setCalls := (k, v) :: tr.setCalls }

/-- handleKeyRequest from service.go: switch on the request method.
GET: when getKey is empty, record a 400 increment and write a 400 header but
fall through (no return in the source) to Store.Get with the empty key; a Get
error or a marshal error records a 500 increment and writes a 500 header; on
success the marshal output is written verbatim as the body.
POST: a body decode error records 400; otherwise each decoded entry goes to
Store.Set via setAll, the URL path being ignored.
DELETE: an empty key records 400 and returns before any Store call; otherwise
Store.Delete is called, a 500 is recorded on error, and on success the source
calls Store.Delete a second time, ignoring its result.
Any other method records a 405 increment and writes a 405 header. -/
def handleKeyRequest (method path : String) (env : ReqEnv) : Trace :=
  if method = "GET" then
    let k := getKey path
    let pre : Trace :=
      if k = "" then
        { errorIncs := [("/key", method, "400")], headerWrites := [400],
          statusLbl := some "400" }
      else {}
    match env.store.getRes k with
    | .error _ =>
      { pre with
        getCalls := [k],
        errorIncs := pre.errorIncs ++ [("/key", method, "500")],
        headerWrites := pre.headerWrites ++ [500],
        statusLbl := some "500" }
    | .ok v =>
      match env.marshalRes k v with
      | .error _ =>
        { pre with
          getCalls := [k],
          errorIncs := pre.errorIncs ++ [("/key", method, "500")],
          headerWrites := pre.headerWrites ++ [500],
          statusLbl := some "500" }
      | .ok b =>
        { pre with getCalls := [k], bodyWrites := [b] }
  else if method = "POST" then
    match env.keyBody with
    | none =>
      { errorIncs := [("/key", method, "400")], headerWrites := [400],
        statusLbl := some "400" }
    | some m => setAll method env.store m
  else if method = "DELETE" then
    let k := getKey path
    if k = "" then
      { errorIncs := [("/key", method, "400")], headerWrites := [400],
        statusLbl := some "400" }
    else
      match env.store.deleteRes k with
      | .error _ =>
        { deleteCalls := [k], errorIncs := [("/key", method, "500")],
          headerWrites := [500], statusLbl := some "500" }
      | .ok _ => { deleteCalls := [k, k] }
  else
    { errorIncs := [("/key", method, "405")], headerWrites := [405],
      statusLbl := some "405" }

/-- handleJoin from service.go: a body decode error, a decoded map whose size
differs from two, or a missing addr or id entry writes a 400 header before any
Store call; otherwise Store.Join(id, addr) is called once, a Join error writes
500, and success leaves the implicit 200 with empty body. -/
def handleJoin (env : ReqEnv) : Trace :=
  match env.joinBody with
  | none => { headerWrites := [400] }
  | some m =>
    if m.length ≠ 2 then { headerWrites := [400] }
    else
      match m.lookup "addr" with
      | none => { headerWrites := [400] }
      | some remoteAddr =>
        match m.lookup "id" with
        | none => { headerWrites := [400] }
        | some nodeID =>
          match env.store.joinRes nodeID remoteAddr with
          | .error _ => { joinCalls := [(nodeID, remoteAddr)], headerWrites := [500] }
          | .ok _ => { joinCalls := [(nodeID, remoteAddr)] }

/-- handleStatus from service.go: write Store.Status() verbatim. -/
def handleStatus (env : ReqEnv) : Trace :=
  { statusCalls := 1, bodyWrites := [env.store.statusRes] }

/-- ServeHTTP from service.go: a path starting with /key goes to the key
handler (checked first), then exact matches for /join and /status, and
anything else gets a bare 404 header write. -/
def serveHTTP (method path : String) (env : ReqEnv) : Trace :=
  if hasPfx "/key" path then handleKeyRequest method path env
  else if path = "/join" then handleJoin env
  else if path = "/status" then handleStatus env
  else { headerWrites := [404] }

/-- The variable label names the latency summary vector is declared with. -/
def summaryLabelNames : List String := ["endpoint", "method"]

/-- The keys of the labels map of handleKeyRequest at scope exit: endpoint and
method always, plus status when an error path stored a status label. -/
def labelKeys (statusLbl : Option String) : List String :=
  match statusLbl with
  | none => ["endpoint", "method"]
  | some _ => ["endpoint", "method", "status"]

/-- The prometheus vector lookup With(labels) resolves a child only when the
supplied label map has exactly the declared variable labels, every declared
name present and the cardinalities equal; otherwise GetMetricWith returns an
inconsistent-cardinality or missing-name error and With panics. -/
def withResolves (declared keys : List String) : Bool :=
  declared.length == keys.length && declared.all (fun n => keys.contains n)

/-- The latency observations actually recorded by the deferred
httpRequestsSummary.With(labels).Observe(...) at the end of handleKeyRequest:
one observation tagged (endpoint, method) when With resolves against the final
labels map, and none when With panics instead. -/
def keyObservations (method : String) (tr : Trace) : List (String × String) :=
  if withResolves summaryLabelNames (labelKeys tr.statusLbl) then [("/key", method)]
  else []

/-- Latency observations recorded while serving one request: only the key
handler installs the deferred observation. -/
def serveObservations (method path : String) (env : ReqEnv) : List (String × String) :=
  if hasPfx "/key" path then keyObservations method (handleKeyRequest method path env)
  else []

/-- A bound TCP listener, known by its bound address. -/
structure GoListener where
  boundAddr : String
deriving Repr, DecidableEq

/-- The Service struct of service.go: the configured address and the listener
field, which is the nil zero value (none) until Start stores a listener. The
Store field plays no role in the lifecycle operations and is omitted. -/
structure Service where
  addr : String
  ln : Option GoListener
deriving Repr, DecidableEq

/-- New from service.go: returns the service with only the address (and store)
set, leaving the listener field nil. -/
def Service.new (addr : String) : Service := { addr := addr, ln := none }

/-- Start from service.go: net.Listen either fails, in which case the error is
returned and the listener field is left untouched, or yields a listener that
is stored in the field before Start returns nil. -/
def Service.start (s : Service) (listenRes : Except Unit GoListener) :
    Except Unit Service :=
  match listenRes with
  | .error e => .error e
  | .ok l => .ok { s with ln := some l }

/-- Addr from service.go returns s.ln.Addr(): calling a method through a nil
listener interface panics, modelled as an error result. -/
def Service.addrOp (s : Service) : Except Unit String :=
  match s.ln with
  | none => .error ()
  | some l => .ok l.boundAddr

/-- Close from service.go calls s.ln.Close(): a panic on a nil listener,
otherwise it acts on the bound listener (returned here to show which). -/
def Service.closeOp (s : Service) : Except Unit GoListener :=
  match s.ln with
  | none => .error ()
  | some l => .ok l

/-- A Store oracle whose every operation succeeds. -/
def storeOk : StoreOracle where
  getRes := fun k => .ok ("v" ++ k)
  setRes := fun _ _ => .ok ()
  deleteRes := fun _ => .ok ()
  joinRes := fun _ _ => .ok ()
  statusRes := "leader"

/-- A Store oracle whose every operation fails. -/
def storeErr : StoreOracle where
  getRes := fun _ => .error ()
  setRes := fun _ _ => .error ()
  deleteRes := fun _ => .error ()
  joinRes := fun _ _ => .error ()
  statusRes := "leader"

/-- A marshalling oracle that renders the one-entry JSON object. -/
def marshalKV (k v : String) : Except Unit String :=
  .ok ("\x7b\"" ++ k ++ "\":\"" ++ v ++ "\"\x7d")

/-- Concrete request environment where every collaborator call succeeds. -/
def envOk : ReqEnv where
  store := storeOk
  marshalRes := marshalKV
  keyBody := some [("a", "1"), ("b", "2")]
  joinBody := some [("addr", "h:1"), ("id", "n1")]

/-- Concrete request environment where every collaborator call fails. -/
def envErr : ReqEnv where
  store := storeErr
  marshalRes := fun _ _ => .error ()
  keyBody := none
  joinBody := none

/-- A Store oracle whose Set fails exactly on the key b. -/
def storeFailB : StoreOracle :=
  { storeOk with setRes := fun k _ => if k = "b" then .error () else .ok () }

/-- Request environment whose POST body is decoded but whose second entry
fails to Set. -/
def envFailB : ReqEnv := { envOk with store := storeFailB }

/-- Request environment with a one-entry join body (wrong shape). -/
def envJoinBad : ReqEnv := { envOk with joinBody := some [("id", "n1")] }

/-- Request environment with a well-shaped join body but a failing Store. -/
def envJoinErr : ReqEnv := { envOk with store := storeErr }

example : getKey "/key/foo" = "foo" := by decide
example : getKey "/key/" = "" := by decide
example : getKey "/key" = "" := by decide
example : getKey "/key/a/b" = "" := by decide

/-- When every decoded entry Sets successfully, the POST loop issues one Set
per entry in order and produces the default-200 trace. -/
theorem setAll_all_ok (method : String) (store : StoreOracle) :
    ∀ m : List (String × String),
      (∀ kv ∈ m, store.setRes kv.1 kv.2 = .ok ()) →
      setAll method store m = { setCalls := m } := by
  intro m
  induction m with
  | nil => intro _; rfl
  | cons kv rest ih =>
    intro h
    obtain ⟨k, v⟩ := kv
    have hk1 := h (k, v) (List.mem_cons_self _ _)
    simp only [setAll, hk1]
    rw [ih (fun kv2 h2 => h kv2 (List.mem_cons_of_mem _ h2))]

/-- When the first failing entry is reached, the POST loop has issued exactly
the Sets for the preceding entries plus the failing one, and stops with the
500 trace; the remaining entries are never attempted. -/
theorem setAll_first_err (method : String) (store : StoreOracle)
    (k v : String) (post : List (String × String))
    (hkv : store.setRes k v = .error ()) :
    ∀ pre : List (String × String),
      (∀ kv2 ∈ pre, store.setRes kv2.1 kv2.2 = .ok ()) →
      setAll method store (pre ++ (k, v) :: post) =
        { setCalls := pre ++ [(k, v)], errorIncs := [("/key", method, "500")],
          headerWrites := [500], statusLbl := some "500" } := by
  intro pre
  induction pre with
  | nil =>
    intro _
    simp only [List.nil_append, setAll, hkv]
  | cons kv2 tl ih =>
    intro h
    obtain ⟨k2, v2⟩ := kv2
    have h2 := h (k2, v2) (List.mem_cons_self _ _)
    simp only [List.cons_append, setAll, h2]
    simp only [List.append_eq]
    rw [ih (fun kv3 h3 => h kv3 (List.mem_cons_of_mem _ h3))]

/-- Claim C1: on GET, an invalid path decomposition (not exactly three
slash-separated segments) yields the empty key, a 400 error increment and a
400 header write, yet Store.Get is still called with the empty key; on every
GET the Store.Get argument is the extracted key; a Get error yields a 500
increment and header write with no body; so does a marshal error; and on
success the marshal output is the body, written verbatim. -/
theorem c1_get_semantics (env : ReqEnv) (path : String) :
    ((splitSlash path).length ≠ 3 →
      getKey path = "" ∧
      (handleKeyRequest "GET" path env).errorIncs.head? =
        some ("/key", "GET", "400") ∧
      (handleKeyRequest "GET" path env).headerWrites.head? = some 400 ∧
      (handleKeyRequest "GET" path env).getCalls = [""]) ∧
    (handleKeyRequest "GET" path env).getCalls = [getKey path] ∧
    (env.store.getRes (getKey path) = .error () →
      500 ∈ (handleKeyRequest "GET" path env).headerWrites ∧
      ("/key", "GET", "500") ∈ (handleKeyRequest "GET" path env).errorIncs ∧
      (handleKeyRequest "GET" path env).bodyWrites = []) ∧
    (∀ v, env.store.getRes (getKey path) = .ok v →
      (env.marshalRes (getKey path) v = .error () →
        500 ∈ (handleKeyRequest "GET" path env).headerWrites ∧
        ("/key", "GET", "500") ∈ (handleKeyRequest "GET" path env).errorIncs ∧
        (handleKeyRequest "GET" path env).bodyWrites = []) ∧
      (∀ b, env.marshalRes (getKey path) v = .ok b →
        (handleKeyRequest "GET" path env).bodyWrites = [b])) := by
  generalize hk0 : getKey path = k0
  refine ⟨?_, ?_, ?_, ?_⟩
  · intro h3
    have hk : k0 = "" := by rw [← hk0]; simp [getKey, h3]
    subst hk
    refine ⟨rfl, ?_, ?_, ?_⟩
    all_goals
      cases hg : env.store.getRes "" with
      | error e => simp [handleKeyRequest, hk0, hg]
      | ok v =>
        cases hm : env.marshalRes "" v with
        | error e => simp [handleKeyRequest, hk0, hg, hm]
        | ok b => simp [handleKeyRequest, hk0, hg, hm]
  · cases hg : env.store.getRes k0 with
    | error e => simp [handleKeyRequest, hk0, hg]
    | ok v =>
      cases hm : env.marshalRes k0 v with
      | error e => simp [handleKeyRequest, hk0, hg, hm]
      | ok b => simp [handleKeyRequest, hk0, hg, hm]
  · intro hg
    by_cases hk : k0 = ""
    · subst hk
      refine ⟨?_, ?_, ?_⟩ <;> simp [handleKeyRequest, hk0, hg]
    · refine ⟨?_, ?_, ?_⟩ <;> simp [handleKeyRequest, hk0, hg, hk]
  · intro v hg
    constructor
    · intro hm
      by_cases hk : k0 = ""
      · subst hk
        refine ⟨?_, ?_, ?_⟩ <;> simp [handleKeyRequest, hk0, hg, hm]
      · refine ⟨?_, ?_, ?_⟩ <;> simp [handleKeyRequest, hk0, hg, hm, hk]
    · intro b hm
      simp [handleKeyRequest, hk0, hg, hm]

/-- Concrete instances of the GET claim: on GET /key (two segments) with a
failing Store, a 400 increment comes first, Store.Get is called with the empty
key and a 500 header write follows; on GET /key/foo with a healthy Store the
marshal output is the body. -/
theorem c1_get_semantics_witness :
    (handleKeyRequest "GET" "/key" envErr).errorIncs.head? =
      some ("/key", "GET", "400") ∧
    (handleKeyRequest "GET" "/key" envErr).getCalls = [""] ∧
    500 ∈ (handleKeyRequest "GET" "/key" envErr).headerWrites ∧
    (handleKeyRequest "GET" "/key/foo" envOk).bodyWrites =
      ["\x7b\"foo\":\"vfoo\"\x7d"] :=
  ⟨((c1_get_semantics envErr "/key").1 (by decide)).2.1,
   ((c1_get_semantics envErr "/key").1 (by decide)).2.2.2,
   ((c1_get_semantics envErr "/key").2.2.1 rfl).1,
   ((c1_get_semantics envOk "/key/foo").2.2.2 "vfoo" rfl).2
     "\x7b\"foo\":\"vfoo\"\x7d" rfl⟩

/-- Claim C2: on POST, a body decode failure yields 400 with no Store call;
otherwise the decoded entries are forwarded to Store.Set one at a time in
order, a first Set error aborts with 500 after having attempted exactly the
entries up to and including the failing one, full success yields the implicit
200 with empty body, and the URL path is ignored throughout. -/
theorem c2_post_semantics (env : ReqEnv) (path : String) :
    (env.keyBody = none →
      effectiveStatus (handleKeyRequest "POST" path env) = 400 ∧
      storeCallCount (handleKeyRequest "POST" path env) = 0) ∧
    (∀ m, env.keyBody = some m →
      ((∀ kv ∈ m, env.store.setRes kv.1 kv.2 = .ok ()) →
        (handleKeyRequest "POST" path env).setCalls = m ∧
        effectiveStatus (handleKeyRequest "POST" path env) = 200 ∧
        (handleKeyRequest "POST" path env).bodyWrites = []) ∧
      (∀ pre k v post, m = pre ++ (k, v) :: post →
        (∀ kv2 ∈ pre, env.store.setRes kv2.1 kv2.2 = .ok ()) →
        env.store.setRes k v = .error () →
        (handleKeyRequest "POST" path env).setCalls = pre ++ [(k, v)] ∧
        effectiveStatus (handleKeyRequest "POST" path env) = 500)) ∧
    (∀ p2, handleKeyRequest "POST" path env = handleKeyRequest "POST" p2 env) := by
  refine ⟨?_, ?_, ?_⟩
  · intro h
    constructor <;> simp [handleKeyRequest, effectiveStatus, storeCallCount, h]
  · intro m hm
    constructor
    · intro hall
      have hset := setAll_all_ok "POST" env.store m hall
      refine ⟨?_, ?_, ?_⟩ <;>
        simp [handleKeyRequest, effectiveStatus, hm, hset]
    · intro pre k v post hsplit hpre hkv
      have hset := setAll_first_err "POST" env.store k v post hkv pre hpre
      subst hsplit
      constructor <;> simp [handleKeyRequest, effectiveStatus, hm, hset]
  · intro p2
    simp [handleKeyRequest]

/-- Concrete instances of the POST claim: a two-entry body all of whose Sets
succeed gives both Set calls and 200; a decode failure gives 400; a body whose
second entry fails to Set attempts exactly the first two entries and gives
500. -/
theorem c2_post_semantics_witness :
    (handleKeyRequest "POST" "/key/x" envOk).setCalls = [("a", "1"), ("b", "2")] ∧
    effectiveStatus (handleKeyRequest "POST" "/key/x" envOk) = 200 ∧
    effectiveStatus (handleKeyRequest "POST" "/key/x" envErr) = 400 ∧
    (handleKeyRequest "POST" "/key/x" envFailB).setCalls =
      [("a", "1"), ("b", "2")] ∧
    effectiveStatus (handleKeyRequest "POST" "/key/x" envFailB) = 500 :=
  ⟨(((c2_post_semantics envOk "/key/x").2.1 [("a", "1"), ("b", "2")] rfl).1
      (fun _ _ => rfl)).1,
   (((c2_post_semantics envOk "/key/x").2.1 [("a", "1"), ("b", "2")] rfl).1
      (fun _ _ => rfl)).2.1,
   ((c2_post_semantics envErr "/key/x").1 rfl).1,
   (((c2_post_semantics envFailB "/key/x").2.1 [("a", "1"), ("b", "2")] rfl).2
      [("a", "1")] "b" "2" [] rfl
      (fun kv2 h2 => by rw [List.mem_singleton] at h2; subst h2; rfl) rfl).1,
   (((c2_post_semantics envFailB "/key/x").2.1 [("a", "1"), ("b", "2")] rfl).2
      [("a", "1")] "b" "2" [] rfl
      (fun kv2 h2 => by rw [List.mem_singleton] at h2; subst h2; rfl) rfl).2⟩

/-- Claim C3: the join handler answers 400, without calling the Store, when
the body fails to decode, when the decoded map does not have exactly two
entries, or when addr or id is missing; otherwise it calls Store.Join(id,
addr) exactly once, answering 500 on a Join error and the implicit 200 with
empty body on success. -/
theorem c3_join_semantics (env : ReqEnv) :
    (env.joinBody = none → handleJoin env = { headerWrites := [400] }) ∧
    (∀ m, env.joinBody = some m →
      ((m.length ≠ 2 ∨ m.lookup "addr" = none ∨ m.lookup "id" = none) →
        effectiveStatus (handleJoin env) = 400 ∧
        storeCallCount (handleJoin env) = 0) ∧
      (∀ a i, m.length = 2 → m.lookup "addr" = some a → m.lookup "id" = some i →
        (handleJoin env).joinCalls = [(i, a)] ∧
        (env.store.joinRes i a = .error () →
          effectiveStatus (handleJoin env) = 500 ∧
          (handleJoin env).bodyWrites = []) ∧
        (env.store.joinRes i a = .ok () →
          effectiveStatus (handleJoin env) = 200 ∧
          (handleJoin env).bodyWrites = []))) := by
  refine ⟨?_, ?_⟩
  · intro h; simp [handleJoin, h]
  · intro m hm
    constructor
    · intro hbad
      rcases hbad with hlen | haddr | hid
      · constructor <;>
          simp [handleJoin, effectiveStatus, storeCallCount, hm, hlen]
      · by_cases hlen : m.length = 2
        · constructor <;>
            simp [handleJoin, effectiveStatus, storeCallCount, hm, hlen, haddr]
        · constructor <;>
            simp [handleJoin, effectiveStatus, storeCallCount, hm, hlen]
      · by_cases hlen : m.length = 2
        · cases haddr : m.lookup "addr" with
          | none =>
            constructor <;>
              simp [handleJoin, effectiveStatus, storeCallCount, hm, hlen, haddr]
          | some a =>
            constructor <;>
              simp [handleJoin, effectiveStatus, storeCallCount, hm, hlen,
                haddr, hid]
        · constructor <;>
            simp [handleJoin, effectiveStatus, storeCallCount, hm, hlen]
    · intro a i hlen haddr hid
      cases hj : env.store.joinRes i a with
      | error e =>
        cases e
        refine ⟨?_, ?_, ?_⟩ <;>
          simp [handleJoin, effectiveStatus, hm, hlen, haddr, hid, hj]
      | ok u =>
        cases u
        refine ⟨?_, ?_, ?_⟩ <;>
          simp [handleJoin, effectiveStatus, hm, hlen, haddr, hid, hj]

/-- Concrete instances of the join claim: a decode failure and a one-entry
body give 400 with no Store call; a well-shaped body gives exactly one
Join(id, addr) call, 200 on success and 500 when Join fails. -/
theorem c3_join_semantics_witness :
    handleJoin envErr = { headerWrites := [400] } ∧
    effectiveStatus (handleJoin envJoinBad) = 400 ∧
    storeCallCount (handleJoin envJoinBad) = 0 ∧
    (handleJoin envOk).joinCalls = [("n1", "h:1")] ∧
    effectiveStatus (handleJoin envOk) = 200 ∧
    effectiveStatus (handleJoin envJoinErr) = 500 :=
  ⟨(c3_join_semantics envErr).1 rfl,
   (((c3_join_semantics envJoinBad).2 [("id", "n1")] rfl).1
      (Or.inl (by decide))).1,
   (((c3_join_semantics envJoinBad).2 [("id", "n1")] rfl).1
      (Or.inl (by decide))).2,
   (((c3_join_semantics envOk).2 [("addr", "h:1"), ("id", "n1")] rfl).2
      "h:1" "n1" rfl rfl rfl).1,
   ((((c3_join_semantics envOk).2 [("addr", "h:1"), ("id", "n1")] rfl).2
      "h:1" "n1" rfl rfl rfl).2.2 rfl).1,
   ((((c3_join_semantics envJoinErr).2 [("addr", "h:1"), ("id", "n1")] rfl).2
      "h:1" "n1" rfl rfl rfl).2.1 rfl).1⟩

/-- Claim C8: for a GET whose extracted key is empty, the status actually sent
is 400 whatever the Store and the marshaller do, because the 400 header write
comes first and net/http ignores later WriteHeader calls; on Store and marshal
success the body is still written after that 400 status. -/
theorem c8_committed_status (env : ReqEnv) (path : String)
    (hk : getKey path = "") :
    effectiveStatus (handleKeyRequest "GET" path env) = 400 ∧
    (handleKeyRequest "GET" path env).headerWrites.head? = some 400 ∧
    (∀ v b, env.store.getRes "" = .ok v → env.marshalRes "" v = .ok b →
      (handleKeyRequest "GET" path env).bodyWrites = [b]) := by
  refine ⟨?_, ?_, ?_⟩
  · cases hg : env.store.getRes "" with
    | error e => simp [handleKeyRequest, effectiveStatus, hk, hg]
    | ok v =>
      cases hm : env.marshalRes "" v with
      | error e => simp [handleKeyRequest, effectiveStatus, hk, hg, hm]
      | ok b => simp [handleKeyRequest, effectiveStatus, hk, hg, hm]
  · cases hg : env.store.getRes "" with
    | error e => simp [handleKeyRequest, hk, hg]
    | ok v =>
      cases hm : env.marshalRes "" v with
      | error e => simp [handleKeyRequest, hk, hg, hm]
      | ok b => simp [handleKeyRequest, hk, hg, hm]
  · intro v b hg hm
    simp [handleKeyRequest, hk, hg, hm]

/-- Concrete instance of the committed-status claim: GET /key/ with a healthy
Store still answers 400, and the body for the empty key is written anyway. -/
theorem c8_committed_status_witness :
    effectiveStatus (handleKeyRequest "GET" "/key/" envOk) = 400 ∧
    (handleKeyRequest "GET" "/key/" envOk).bodyWrites =
      ["\x7b\"\":\"v\"\x7d"] :=
  ⟨(c8_committed_status envOk "/key/" (by decide)).1,
   (c8_committed_status envOk "/key/" (by decide)).2.2 "v"
     "\x7b\"\":\"v\"\x7d" rfl rfl⟩

/-- Claim C4: the dispatcher routes by checking the /key path-start test
first (so /keyfoo and /key itself both reach the key handler), then the exact
matches /join and /status; any other path gets a 404 response with no Store
interaction and no metric recorded. -/
theorem c4_dispatch_precedence (env : ReqEnv) (method path : String) :
    (hasPfx "/key" path = true →
      serveHTTP method path env = handleKeyRequest method path env) ∧
    (hasPfx "/key" path = false → path = "/join" →
      serveHTTP method path env = handleJoin env) ∧
    (hasPfx "/key" path = false → path = "/status" →
      serveHTTP method path env = handleStatus env) ∧
    hasPfx "/key" "/keyfoo" = true ∧ hasPfx "/key" "/key" = true ∧
    (hasPfx "/key" path = false → path ≠ "/join" → path ≠ "/status" →
      serveHTTP method path env = { headerWrites := [404] } ∧
      storeCallCount (serveHTTP method path env) = 0 ∧
      (serveHTTP method path env).errorIncs = [] ∧
      serveObservations method path env = []) := by
  refine ⟨?_, ?_, ?_, by decide, by decide, ?_⟩
  · intro h; simp [serveHTTP, h]
  · intro h hj; subst hj; simp [serveHTTP, h]
  · intro h hs; subst hs; simp [serveHTTP, h]
  · intro h hj hs
    refine ⟨?_, ?_, ?_, ?_⟩ <;>
      simp [serveHTTP, serveObservations, storeCallCount, h, hj, hs]

/-- Concrete instances of the routing claim: a /keyfoo path reaches the key
handler, /join and /status reach their handlers, and an unknown path yields
the bare 404 trace with no latency observation. -/
theorem c4_dispatch_precedence_witness :
    serveHTTP "GET" "/keyfoo" envOk = handleKeyRequest "GET" "/keyfoo" envOk ∧
    serveHTTP "POST" "/join" envOk = handleJoin envOk ∧
    serveHTTP "GET" "/status" envOk = handleStatus envOk ∧
    serveHTTP "GET" "/nope" envOk = { headerWrites := [404] } ∧
    serveObservations "GET" "/nope" envOk = [] :=
  ⟨(c4_dispatch_precedence envOk "GET" "/keyfoo").1 (by decide),
   (c4_dispatch_precedence envOk "POST" "/join").2.1 (by decide) rfl,
   (c4_dispatch_precedence envOk "GET" "/status").2.2.1 (by decide) rfl,
   ((c4_dispatch_precedence envOk "GET" "/nope").2.2.2.2.2
      (by decide) (by decide) (by decide)).1,
   ((c4_dispatch_precedence envOk "GET" "/nope").2.2.2.2.2
      (by decide) (by decide) (by decide)).2.2.2⟩

/-- Claim C5, evaluated on the code: on DELETE /key/k with a Store whose
Delete succeeds, handleKeyRequest issues the Delete call twice (the source
repeats s.store.Delete(k) after the error check, ignoring the second result),
while responding 200 with empty body; the 400-on-empty-key and 500-on-error
parts of the claim do hold, with a single call in the error case. The claim
says Delete is called exactly once for a non-empty key, so the success path
contradicts it. -/
theorem c5_delete_double_call :
    (handleKeyRequest "DELETE" "/key/k" envOk).deleteCalls = ["k", "k"] ∧
    effectiveStatus (handleKeyRequest "DELETE" "/key/k" envOk) = 200 ∧
    (handleKeyRequest "DELETE" "/key/k" envOk).bodyWrites = [] ∧
    (handleKeyRequest "DELETE" "/key/" envOk).deleteCalls = [] ∧
    effectiveStatus (handleKeyRequest "DELETE" "/key/" envOk) = 400 ∧
    (handleKeyRequest "DELETE" "/key/k" envErr).deleteCalls = ["k"] ∧
    effectiveStatus (handleKeyRequest "DELETE" "/key/k" envErr) = 500 := by
  decide

/-- Claim C6: a key-path request whose method is none of GET, POST and DELETE
yields the 405 trace: a single error-counter increment labelled (/key, method,
405), a 405 header write, and no Store call. -/
theorem c6_method_not_allowed (env : ReqEnv) (method path : String)
    (h1 : method ≠ "GET") (h2 : method ≠ "POST") (h3 : method ≠ "DELETE") :
    handleKeyRequest method path env =
      { errorIncs := [("/key", method, "405")], headerWrites := [405],
        statusLbl := some "405" } ∧
    effectiveStatus (handleKeyRequest method path env) = 405 ∧
    storeCallCount (handleKeyRequest method path env) = 0 := by
  refine ⟨?_, ?_, ?_⟩ <;>
    simp [handleKeyRequest, effectiveStatus, storeCallCount, h1, h2, h3]

/-- Concrete instance of the 405 claim: a PUT on /key/k. -/
theorem c6_method_not_allowed_witness :
    handleKeyRequest "PUT" "/key/k" envOk =
      { errorIncs := [("/key", "PUT", "405")], headerWrites := [405],
        statusLbl := some "405" } ∧
    effectiveStatus (handleKeyRequest "PUT" "/key/k" envOk) = 405 ∧
    storeCallCount (handleKeyRequest "PUT" "/key/k" envOk) = 0 :=
  c6_method_not_allowed envOk "PUT" "/key/k" (by decide) (by decide) (by decide)

/-- Claim C7, evaluated on the code: the deferred latency observation is
recorded only on the success path. On every error path the handler has
executed labels["status"] = ..., so at scope exit the labels map carries three
entries while the summary vector declares the two variable labels endpoint and
method; With therefore fails its cardinality check and panics instead of
observing. A successful GET or POST does record exactly one observation, but a
PUT (405), a GET with empty key (400), a failing DELETE (500) and a malformed
POST body (400) record none, contradicting the claim that every key-access
request records exactly one observation. -/
theorem c7_observation_lost_on_error_paths :
    keyObservations "GET" (handleKeyRequest "GET" "/key/k" envOk) =
      [("/key", "GET")] ∧
    keyObservations "POST" (handleKeyRequest "POST" "/key/x" envOk) =
      [("/key", "POST")] ∧
    keyObservations "PUT" (handleKeyRequest "PUT" "/key/k" envOk) = [] ∧
    keyObservations "GET" (handleKeyRequest "GET" "/key/" envOk) = [] ∧
    keyObservations "DELETE" (handleKeyRequest "DELETE" "/key/k" envErr) = [] ∧
    keyObservations "POST" (handleKeyRequest "POST" "/key/x" envErr) = [] := by
  decide

/-- Claim C9: a single GET with an empty key whose Store.Get fails increments
the error counter twice, first with status label 400 and then with status
label 500, so error-counter increments can exceed failed requests. -/
theorem c9_double_error_increment :
    (handleKeyRequest "GET" "/key/" envErr).errorIncs =
      [("/key", "GET", "400"), ("/key", "GET", "500")] ∧
    (handleKeyRequest "GET" "/key/" envErr).errorIncs.length = 2 := by
  decide

/-- Claim C10: New leaves the listener field nil, so Addr and Close before a
successful Start dereference a nil listener (modelled as an error result); a
failed Start leaves it nil; after a successful Start both act on the bound
listener. -/
theorem c10_nil_listener_lifecycle (a : String) (l : GoListener) :
    (Service.new a).ln = none ∧
    Service.addrOp (Service.new a) = .error () ∧
    Service.closeOp (Service.new a) = .error () ∧
    Service.start (Service.new a) (.error ()) = .error () ∧
    ∀ s', Service.start (Service.new a) (.ok l) = .ok s' →
      s'.ln = some l ∧ Service.addrOp s' = .ok l.boundAddr ∧
      Service.closeOp s' = .ok l := by
  refine ⟨rfl, rfl, rfl, rfl, ?_⟩
  intro s' h
  simp only [Service.start, Except.ok.injEq] at h
  subst h
  exact ⟨rfl, rfl, rfl⟩

/-- Concrete instance of the lifecycle claim: a started service exposes the
bound listener through Addr and Close. -/
theorem c10_nil_listener_lifecycle_witness :
    ({ addr := ":11000", ln := some { boundAddr := "a:1" } } : Service).ln =
      some { boundAddr := "a:1" } ∧
    Service.addrOp { addr := ":11000", ln := some { boundAddr := "a:1" } } =
      .ok "a:1" ∧
    Service.closeOp { addr := ":11000", ln := some { boundAddr := "a:1" } } =
      .ok { boundAddr := "a:1" } :=
  (c10_nil_listener_lifecycle ":11000" { boundAddr := "a:1" }).2.2.2.2
    { addr := ":11000", ln := some { boundAddr := "a:1" } } rfl

end Hraftd
